import Mathlib

/-!
Shallow embedding of `prawcore/sessions.py` (the retry-strategy state machine
and the `Session` request-execution pipeline), with theorems checking the
natural-language specification's claims against it.

Conventions:
* Python `int` is embedded as `Int`, `float` randomness as `Rat`.
* `random.random()` (a value in `[0,1)`) is an explicit parameter `rand`.
* The transport is a black box: one logical request consumes a script
  (`List Outcome`) giving each attempt's outcome (a response, or a
  `RequestException` whose original cause is or is not a retryable class).
* The authorizer (`prawcore/auth.py`, not part of the staged sources) is
  modelled from the spec as a small state record; see `AuthorizerState`.
* Python object identity and in-place mutation are modelled, where a claim
  is about them, by a reference store `Store α` mapping numeric references
  to values; `deepcopy` is `Store.alloc` of the dereferenced contents.
-/

namespace Prawcore

/-! ### FiniteRetryStrategy (sessions.py lines 66-89)

`RetryStrategy` instances are immutable; `FiniteRetryStrategy` carries the
single attribute `_retries` (constructor default 3). -/

structure FiniteRetryStrategy where
  retries : Int
deriving DecidableEq, Repr

/-- `FiniteRetryStrategy._sleep_seconds` (lines 69-73):
`if self._retries < 3: base = 0 if self._retries == 2 else 2;
 return base + 2 * random.random()` else `return None`.
`rand` stands for the `random.random()` draw, a rational in `[0,1)`. -/
def FiniteRetryStrategy.sleep_seconds (s : FiniteRetryStrategy) (rand : ℚ) : Option ℚ :=
  if s.retries < 3 then some ((if s.retries = 2 then 0 else 2) + 2 * rand) else none

/-- `FiniteRetryStrategy.consume_available_retry` (lines 83-85):
`return type(self)(self._retries - 1)` — a fresh instance, one fewer retry. -/
def FiniteRetryStrategy.consume_available_retry (s : FiniteRetryStrategy) :
    FiniteRetryStrategy :=
  ⟨s.retries - 1⟩

/-- `FiniteRetryStrategy.should_retry_on_failure` (lines 87-89):
`return self._retries > 1`. -/
def FiniteRetryStrategy.should_retry_on_failure (s : FiniteRetryStrategy) : Bool :=
  s.retries > 1

/-! ### A reference store, for the claims about object identity

Python objects live on a heap and are passed by reference; the two
frame-effect claims (deep-copy normalization, non-mutating
`consume_available_retry`) are about which heap cells an operation touches.
`Store α` is that heap: a list of `(reference, value)` cells and the next
fresh reference. -/

structure Store (α : Type) where
  mem : List (Nat × α)
  next : Nat
deriving DecidableEq, Repr

/-- First cell with the given reference among a list of cells. -/
def lookupCells {α : Type} (ref : Nat) : List (Nat × α) → Option α
  | [] => none
  | p :: l => if p.1 = ref then some p.2 else lookupCells ref l

/-- Dereference: the value a reference currently holds, if allocated. -/
def Store.lookup {α : Type} (st : Store α) (ref : Nat) : Option α :=
  lookupCells ref st.mem

/-- Allocate a fresh cell holding `v` (used for object construction and for
`deepcopy`, which builds a structurally equal but independent object). -/
def Store.alloc {α : Type} (st : Store α) (v : α) : Nat × Store α :=
  (st.next, ⟨(st.next, v) :: st.mem, st.next + 1⟩)

/-- In-place mutation of the cell at `ref` (Python `obj[...] = ...`). -/
def Store.update {α : Type} (st : Store α) (ref : Nat) (f : α → α) : Store α :=
  ⟨st.mem.map (fun p => if p.1 = ref then (p.1, f p.2) else p), st.next⟩

/-- Well-formedness: every allocated reference is below `next`, so `alloc`
really is fresh. -/
def Store.WF {α : Type} (st : Store α) : Prop :=
  ∀ p ∈ st.mem, p.1 < st.next

/-- `st'` is a possible later heap of `st` that touched none of `st`'s cells:
references only grew, and every reference already allocated in `st`
dereferences as before. -/
def Store.Evolves {α : Type} (st st' : Store α) : Prop :=
  st.next ≤ st'.next ∧ ∀ ref, ref < st.next → st'.lookup ref = st.lookup ref

/-- `consume_available_retry` as it acts on the heap: `type(self)(...)`
constructs (allocates) a fresh `FiniteRetryStrategy` whose `_retries` is the
receiver's minus one; the receiver's cell is not touched. -/
def consumeOnStore (st : Store FiniteRetryStrategy) (ref : Nat) :
    Nat × Store FiniteRetryStrategy :=
  st.alloc (((st.lookup ref).getD ⟨0⟩).consume_available_retry)

/-! ### Python dict values (for `params` / `data` / `json` normalization) -/

/-- The values the claims' dictionaries carry: the injected `raw_json=1` is an
int, the injected `api_type="json"` a string. -/
inductive PValue
  | int (n : Int)
  | str (s : String)
deriving DecidableEq, Repr

/-- A Python dict as an insertion-ordered association list with unique keys. -/
abbrev Dict := List (String × PValue)

/-- `d[k] = v` on a dict: overwrite in place when the key is present (keeping
its position), append otherwise. -/
def dictSet (d : Dict) (k : String) (v : PValue) : Dict :=
  if d.any (fun kv => kv.1 == k) then
    d.map (fun kv => if kv.1 == k then (k, v) else kv)
  else
    d ++ [(k, v)]

/-- Key order on dict items: Python `sorted(d.items())` compares the
`(key, value)` tuples, which on a dict's items (unique keys) is decided by
the keys alone. Python compares strings lexicographically by code point;
the keys are compared as their character sequences, the same order. -/
def keyLE (a b : String × PValue) : Prop := a.1.data ≤ b.1.data

instance : DecidableRel keyLE := fun a b =>
  inferInstanceAs (Decidable (a.1.data ≤ b.1.data))

instance : IsTotal (String × PValue) keyLE := ⟨fun a b => le_total a.1.data b.1.data⟩

instance : IsTrans (String × PValue) keyLE := ⟨fun _ _ _ h h' => le_trans h h'⟩

/-- `sorted(d.items())`: a stable sort of the items by key. -/
def sortItems (d : Dict) : Dict := List.insertionSort keyLE d

/-- The mapping branch of `data` normalization (`Session.request`,
lines 338-341): after the deep copy, `data["api_type"] = "json"` then
`data = sorted(data.items())`. -/
def serializeDataDict (d : Dict) : Dict :=
  sortItems (dictSet d "api_type" (.str "json"))

/-! ### Session: responses, outcomes, classification (sessions.py 92-127) -/

/-- What the claims observe of a `requests` response: its status code, its
`content-length` header, and what `response.json()` does — `some v` when the
body decodes (the decoded structure is treated as opaque), `none` when JSON
decoding raises `ValueError`. -/
structure Response where
  status : Nat
  contentLength : Option String
  jsonBody : Option String
deriving DecidableEq, Repr

/-- The error kinds `Session` raises. `authorizationError` stands for the
result of `prawcore.util.authorization_error_class` (util.py is not among the
staged sources; per the spec's taxonomy, 401/403 map to the AuthorizationError
family, the precise member depending on the refresh configuration). -/
inductive ErrorKind
  | badRequest
  | conflict
  | redirect
  | authorizationError
  | serverError
  | specialError
  | notFound
  | tooLarge
  | uriTooLong
  | tooManyRequests
  | unavailableForLegalReasons
deriving DecidableEq, Repr

/-- `Session.RETRY_STATUSES` (lines 96-104): `{520, 522, bad_gateway(502),
gateway_timeout(504), internal_server_error(500), request_timeout(408),
service_unavailable(503)}`. Numeric values per the `requests` status-code
registry. -/
def RETRY_STATUSES : List Nat := [520, 522, 502, 504, 500, 408, 503]

/-- `Session.STATUS_EXCEPTIONS` (lines 105-126), with each `codes[...]` name
replaced by its numeric value from the `requests` registry: bad_gateway=502,
bad_request=400, conflict=409, found=302, forbidden=403, gateway_timeout=504,
internal_server_error=500, media_type=415, moved_permanently=301,
not_found=404, request_entity_too_large=413, request_uri_too_large=414,
service_unavailable=503, too_many_requests=429, unauthorized=401,
unavailable_for_legal_reasons=451; plus the literal 520 and 522.
Note there is no 408 and no 420 entry. -/
def STATUS_EXCEPTIONS : Nat → Option ErrorKind
  | 502 => some .serverError
  | 400 => some .badRequest
  | 409 => some .conflict
  | 302 => some .redirect
  | 403 => some .authorizationError
  | 504 => some .serverError
  | 500 => some .serverError
  | 415 => some .specialError
  | 301 => some .redirect
  | 404 => some .notFound
  | 413 => some .tooLarge
  | 414 => some .uriTooLong
  | 503 => some .serverError
  | 429 => some .tooManyRequests
  | 401 => some .authorizationError
  | 451 => some .unavailableForLegalReasons
  | 520 => some .serverError
  | 522 => some .serverError
  | _ => none

/-- `Session.SUCCESS_STATUSES` (line 127): accepted=202, created=201, ok=200. -/
def SUCCESS_STATUSES : List Nat := [202, 201, 200]

/-! ### The authorizer, modelled from the spec -/

/-- Modelled from the spec: the Authorizer collaborator (`prawcore/auth.py`,
not among the staged sources). Per spec §3/§6 it "holds current token
validity and access-token value; mutated by refresh/clear operations" and is
consumed via `isValid()`, `refresh()` (only on refresh-capable variants) and
`clearAccessToken()`. `hasRefresh` is `hasattr(authorizer, "refresh")`;
`clearCount`/`refreshCount` record how often each mutator ran. -/
structure AuthorizerState where
  hasRefresh : Bool
  isValid : Bool
  clearCount : Nat
  refreshCount : Nat
deriving DecidableEq, Repr

/-- Modelled from the spec: `Authorizer._clear_access_token()` discards the
cached access token, after which `is_valid()` reports false (§4.2 step 4:
"clear the cached access token; ... refresh will happen on the next
attempt's step 2"). -/
def clearAccessToken (a : AuthorizerState) : AuthorizerState :=
  { a with isValid := false, clearCount := a.clearCount + 1 }

/-- Modelled from the spec: `Authorizer.refresh()` renews the token, after
which `is_valid()` reports true (§6). -/
def refreshToken (a : AuthorizerState) : AuthorizerState :=
  { a with isValid := true, refreshCount := a.refreshCount + 1 }

/-- `Session._set_header_callback` (lines 294-297): `if not
self._authorizer.is_valid() and hasattr(self._authorizer, "refresh"):
self._authorizer.refresh()`, then build the bearer header. The rate limiter
(`prawcore/rate_limit.py`, not among the staged sources) invokes this
callback before each attempt's transport call — modelled from the spec, §4.2
steps 2-3. -/
def setHeaderCallback (a : AuthorizerState) : AuthorizerState :=
  if !a.isValid && a.hasRefresh then refreshToken a else a

/-! ### The retry loop (sessions.py lines 163-292) -/

/-- One attempt's outcome at the transport: a response, or a
`RequestException` whose `original_exception` is (`retryableCause = true`) or
is not in `Session.RETRY_EXCEPTIONS = (ChunkedEncodingError, ConnectionError,
ReadTimeout)`. -/
inductive Outcome
  | response (r : Response)
  | exception (retryableCause : Bool)
deriving DecidableEq, Repr

/-- What one logical request ends in: a returned value, a raised error, or
the modelling artifact `scriptExhausted` (the outcome script ran out while
the loop wanted another attempt — never reached on a long-enough script). -/
inductive ReqResult
  | noContent
  | emptyBody
  | jsonValue (v : String)
deriving DecidableEq, Repr

/-- The errors `_request_with_retries` / `_make_request` can raise:
a mapped status exception with the response attached (line 281), `BadJSON`
with the response attached (line 292), a propagated `RequestException`
(line 229), or the `assert` on an unanticipated status (lines 284-286). -/
inductive SessionError
  | statusException (kind : ErrorKind) (response : Response)
  | badJSON (response : Response)
  | requestException (retryableCause : Bool)
  | assertionError (status : Nat)
deriving DecidableEq, Repr

/-- Result of one call of the (recursive) retry loop. -/
inductive RunOutcome
  | returned (v : ReqResult)
  | raised (e : SessionError)
  | scriptExhausted
deriving DecidableEq, Repr

/-- A whole run: the authorizer's final state, how many attempts were made
(how many outcomes of the script were consumed), and the outcome. -/
structure RunResult where
  auth : AuthorizerState
  attempts : Nat
  result : RunOutcome
deriving DecidableEq, Repr

/-- The terminal classification (lines 280-292), reached when the retry
branch is not taken: a mapped status raises its exception; 204 returns
`None`; the `assert` requires a success status; `content-length: 0` returns
`""`; otherwise `response.json()` is returned, `ValueError` becoming
`BadJSON`. -/
def classifyTerminal (r : Response) : RunOutcome :=
  match STATUS_EXCEPTIONS r.status with
  | some kind => .raised (.statusException kind r)
  | none =>
    if r.status == 204 then .returned .noContent
    else if SUCCESS_STATUSES.contains r.status then
      if r.contentLength == some "0" then .returned .emptyBody
      else
        match r.jsonBody with
        | some v => .returned (.jsonValue v)
        | none => .raised (.badJSON r)
    else .raised (.assertionError r.status)

/-- `Session._request_with_retries` together with `_make_request` and
`_do_retry` (lines 163-292), driven by the outcome script. Each call first
sleeps (`retry_strategy_state.sleep()`, no model state), then performs the
attempt: the rate limiter invokes `_set_header_callback` (possibly
refreshing) and the transport yields the head of the script.

* A `RequestException` is propagated unless the strategy still permits a
  retry and its cause is a retryable class (lines 222-230); otherwise the
  attempt counts as a retryable transport failure (`response is None`).
* A 401 response clears the cached access token, and sets `do_retry` when
  the authorizer has a `refresh` attribute (lines 259-263).
* The retry branch (lines 265-279) fires when the strategy permits a retry
  and (`do_retry`, or no response, or a retryable status); `_do_retry`
  recurses on `consume_available_retry()`.
* Otherwise the terminal classification (lines 280-292) decides. -/
def requestWithRetries (auth : AuthorizerState) (rs : FiniteRetryStrategy) :
    List Outcome → RunResult
  | [] => ⟨auth, 0, .scriptExhausted⟩
  | o :: rest =>
    let auth1 := setHeaderCallback auth
    match o with
    | .exception retryableCause =>
      if !rs.should_retry_on_failure || !retryableCause then
        ⟨auth1, 1, .raised (.requestException retryableCause)⟩
      else
        let sub := requestWithRetries auth1 rs.consume_available_retry rest
        ⟨sub.auth, sub.attempts + 1, sub.result⟩
    | .response r =>
      let auth2 := if r.status == 401 then clearAccessToken auth1 else auth1
      let doRetry := r.status == 401 && auth1.hasRefresh
      if rs.should_retry_on_failure && (doRetry || RETRY_STATUSES.contains r.status) then
        let sub := requestWithRetries auth2 rs.consume_available_retry rest
        ⟨sub.auth, sub.attempts + 1, sub.result⟩
      else
        ⟨auth2, 1, classifyTerminal r⟩

/-- Whether an attempt's outcome is a 401 response. -/
def is401 : Outcome → Bool
  | .response r => r.status == 401
  | .exception _ => false

/-- How many 401 responses a script segment contains. -/
def count401 (l : List Outcome) : Nat := l.countP is401

/-! ### Session.request normalization (lines 307-354) -/

/-- The `data` argument: a dict (by reference), raw bytes / a file-like
object (opaque, fails the `isinstance(data, dict)` test), or omitted. -/
inductive DataIn
  | dict (ref : Nat)
  | raw (b : String)
  | omitted
deriving DecidableEq, Repr

/-- The `data` value handed to `_request_with_retries`: the sorted item
sequence (mapping case), the untouched raw payload, or nothing. -/
inductive DataOut
  | pairs (l : Dict)
  | raw (b : String)
  | omitted
deriving DecidableEq, Repr

/-- The normalization prologue of `Session.request` (lines 336-344):
`params = deepcopy(params) or {}; params["raw_json"] = 1`;
`if isinstance(data, dict): data = deepcopy(data); data["api_type"] = "json";
data = sorted(data.items())`;
`if isinstance(json, dict): json = deepcopy(json); json["api_type"] = "json"`.
Returns the evolved store and the normalized `params` reference, `data`
value, and `json` reference. -/
def requestNormalize (st : Store Dict) (params : Option Nat) (dataIn : DataIn)
    (jsonIn : Option Nat) : Store Dict × Nat × DataOut × Option Nat :=
  let pcopy : Dict := match params with
    | some ref => (st.lookup ref).getD []
    | none => []
  let pal := st.alloc pcopy
  let st2 := pal.2.update pal.1 (fun d => dictSet d "raw_json" (.int 1))
  let step2 : Store Dict × DataOut := match dataIn with
    | .dict ref =>
      let dal := st2.alloc ((st2.lookup ref).getD [])
      let st' := dal.2.update dal.1 (fun d => dictSet d "api_type" (.str "json"))
      (st', .pairs (sortItems ((st'.lookup dal.1).getD [])))
    | .raw b => (st2, .raw b)
    | .omitted => (st2, .omitted)
  let step3 : Store Dict × Option Nat := match jsonIn with
    | some ref =>
      let jal := step2.1.alloc ((step2.1.lookup ref).getD [])
      (jal.2.update jal.1 (fun d => dictSet d "api_type" (.str "json")), some jal.1)
    | none => (step2.1, none)
  (step3.1, pal.1, step2.2, step3.2)

/-- `Session.request` end to end: normalization, then the retry loop (the
loop never touches the caller's dicts — it only forwards the normalized
values to the transport, which the outcome script abstracts). -/
def sessionRequest (st : Store Dict) (auth : AuthorizerState)
    (rs : FiniteRetryStrategy) (params : Option Nat) (dataIn : DataIn)
    (jsonIn : Option Nat) (outcomes : List Outcome) : Store Dict × RunResult :=
  let norm := requestNormalize st params dataIn jsonIn
  (norm.1, requestWithRetries auth rs outcomes)

end Prawcore

namespace Prawcore

/-! ### Helper lemmas (shared; none is a claim's theorem) -/

theorem lookupCells_isSome_mem {α : Type} {ref : Nat} {l : List (Nat × α)}
    (h : (lookupCells ref l).isSome) : ∃ p ∈ l, p.1 = ref := by
  induction l with
  | nil => simp [lookupCells] at h
  | cons p l ih =>
    by_cases hp : p.1 = ref
    · exact ⟨p, List.mem_cons_self p l, hp⟩
    · simp only [lookupCells, if_neg hp] at h
      obtain ⟨q, hq, hq2⟩ := ih h
      exact ⟨q, List.mem_cons_of_mem _ hq, hq2⟩

theorem Store.lookup_lt_next {α : Type} {st : Store α} {ref : Nat}
    (hWF : st.WF) (h : (st.lookup ref).isSome) : ref < st.next := by
  obtain ⟨p, hp, he⟩ := lookupCells_isSome_mem h
  have := hWF p hp
  omega

theorem Store.lookup_alloc_ne {α : Type} (st : Store α) (v : α) {ref : Nat}
    (h : ref ≠ st.next) : (st.alloc v).2.lookup ref = st.lookup ref := by
  simp [Store.alloc, Store.lookup, lookupCells, Ne.symm h]

theorem Store.lookup_alloc_self {α : Type} (st : Store α) (v : α) :
    (st.alloc v).2.lookup (st.alloc v).1 = some v := by
  simp [Store.alloc, Store.lookup, lookupCells]

theorem Store.lookup_update_ne {α : Type} (st : Store α) (t : Nat) (f : α → α)
    {ref : Nat} (h : ref ≠ t) : (st.update t f).lookup ref = st.lookup ref := by
  simp only [Store.update, Store.lookup]
  induction st.mem with
  | nil => rfl
  | cons p l ih =>
    by_cases hp : p.1 = t
    · have hne : p.1 ≠ ref := by rw [hp]; exact Ne.symm h
      rw [List.map_cons, if_pos hp]
      simp only [lookupCells]
      rw [if_neg hne, if_neg hne]
      exact ih
    · rw [List.map_cons, if_neg hp]
      simp only [lookupCells]
      by_cases hr : p.1 = ref
      · rw [if_pos hr, if_pos hr]
      · rw [if_neg hr, if_neg hr]
        exact ih

theorem Store.Evolves.refl {α : Type} (st : Store α) : st.Evolves st :=
  ⟨le_refl _, fun _ _ => rfl⟩

theorem Store.Evolves.lookup_eq {α : Type} {st st' : Store α}
    (h : st.Evolves st') {ref : Nat} (hr : ref < st.next) :
    st'.lookup ref = st.lookup ref :=
  h.2 ref hr

/-- One `deepcopy`-then-mutate block (allocate a copy, mutate the fresh cell)
touches no previously allocated cell. -/
theorem Store.Evolves.allocUpdate {α : Type} {st st' : Store α}
    (h : st.Evolves st') (v : α) (f : α → α) :
    st.Evolves (((st'.alloc v).2).update (st'.alloc v).1 f) := by
  obtain ⟨hle, hlook⟩ := h
  refine ⟨?_, ?_⟩
  · show st.next ≤ st'.next + 1
    omega
  · intro ref hr
    have h1 : ref ≠ (st'.alloc v).1 := by
      show ref ≠ st'.next
      omega
    rw [Store.lookup_update_ne _ _ _ h1, Store.lookup_alloc_ne]
    · exact hlook ref hr
    · show ref ≠ st'.next
      omega

theorem setHeaderCallback_clearCount (a : AuthorizerState) :
    (setHeaderCallback a).clearCount = a.clearCount := by
  unfold setHeaderCallback refreshToken
  split <;> rfl

theorem setHeaderCallback_hasRefresh (a : AuthorizerState) :
    (setHeaderCallback a).hasRefresh = a.hasRefresh := by
  unfold setHeaderCallback refreshToken
  split <;> rfl

theorem clearAccessToken_clearCount (a : AuthorizerState) :
    (clearAccessToken a).clearCount = a.clearCount + 1 := rfl

theorem setHeaderCallback_refreshes (a : AuthorizerState)
    (h1 : a.isValid = false) (h2 : a.hasRefresh = true) :
    (setHeaderCallback a).refreshCount = a.refreshCount + 1 := by
  simp [setHeaderCallback, refreshToken, h1, h2]

/-- Over any run, the access token is cleared exactly once per 401 response
among the consumed attempts. -/
theorem clearCount_run (outcomes : List Outcome) :
    ∀ (auth : AuthorizerState) (rs : FiniteRetryStrategy),
      (requestWithRetries auth rs outcomes).auth.clearCount
        = auth.clearCount
          + count401 (outcomes.take (requestWithRetries auth rs outcomes).attempts) := by
  induction outcomes with
  | nil =>
    intro auth rs
    simp [requestWithRetries, count401]
  | cons o rest ih =>
    intro auth rs
    cases o with
    | exception b =>
      simp only [requestWithRetries]
      split
      · simp [count401, is401, setHeaderCallback_clearCount]
      · simp only [List.take_succ_cons, count401, List.countP_cons, is401]
        have := ih (setHeaderCallback auth) rs.consume_available_retry
        simp only [count401] at this
        simp [this, setHeaderCallback_clearCount]
    | response r =>
      simp only [requestWithRetries]
      by_cases h401 : (r.status == 401) = true
      · simp only [h401, if_pos, if_true, Bool.true_and]
        split
        · have := ih (clearAccessToken (setHeaderCallback auth))
            rs.consume_available_retry
          simp only [count401] at this ⊢
          simp only [List.take_succ_cons, List.countP_cons, is401, h401,
            if_pos, this, clearAccessToken_clearCount,
            setHeaderCallback_clearCount]
          omega
        · simp only [count401, List.take_succ_cons, List.countP_cons,
            List.take_zero, List.countP_nil, is401, h401, if_pos,
            clearAccessToken_clearCount, setHeaderCallback_clearCount]
      · simp only [h401, Bool.false_and, Bool.false_or, if_neg,
          Bool.false_eq_true, if_false]
        split
        · have := ih (setHeaderCallback auth) rs.consume_available_retry
          simp only [count401] at this
          simp [count401, is401, h401, this, setHeaderCallback_clearCount]
        · simp [count401, is401, h401, setHeaderCallback_clearCount]

/-! ### The claims -/

/-- **C1 (counterexample).** The claim predicts a delay in `[0,2)` at
`remainingRetries == 3` and no delay at `remainingRetries ≤ 1`;
`_sleep_seconds` (lines 69-73) does the opposite at the concrete draw
`rand = 1/2`: with 3 retries remaining it returns `None` (not a delay in
`[0,2)`), and with 1 retry remaining it returns `2 + 2·(1/2) = 3 ∈ [2,4)`
(not `None`). -/
theorem sleep_seconds_claim_false :
    FiniteRetryStrategy.sleep_seconds ⟨3⟩ (1/2) = none
    ∧ FiniteRetryStrategy.sleep_seconds ⟨1⟩ (1/2) = some 3 := by
  constructor <;> norm_num [FiniteRetryStrategy.sleep_seconds]

/-- **C1 (amended).** For a `FiniteRetryStrategy`, with the uniform draw
`rand ∈ [0,1)`: `sleepSeconds()` returns a delay in `[0,2)` (uniform jitter,
zero base) when `remainingRetries == 2`, a delay in `[2,4)` (base 2 plus
uniform jitter) when `remainingRetries == 1`, and no delay (`None`) when
`remainingRetries ≥ 3`. (In the retry loop the state is consumed before the
recursive call sleeps, so these are the delays before the 2nd-to-last and
last attempts of a default 3-attempt strategy.) -/
theorem sleep_seconds_schedule (s : FiniteRetryStrategy) (rand : ℚ)
    (h0 : 0 ≤ rand) (h1 : rand < 1) :
    (s.retries = 2 → ∃ d, s.sleep_seconds rand = some d ∧ 0 ≤ d ∧ d < 2)
    ∧ (s.retries = 1 → ∃ d, s.sleep_seconds rand = some d ∧ 2 ≤ d ∧ d < 4)
    ∧ (3 ≤ s.retries → s.sleep_seconds rand = none) := by
  refine ⟨?_, ?_, ?_⟩
  · intro h2
    refine ⟨2 * rand, ?_, by linarith, by linarith⟩
    norm_num [FiniteRetryStrategy.sleep_seconds, h2]
  · intro h2
    refine ⟨2 + 2 * rand, ?_, by linarith, by linarith⟩
    norm_num [FiniteRetryStrategy.sleep_seconds, h2]
  · intro h3
    simp [FiniteRetryStrategy.sleep_seconds, not_lt.mpr h3]

/-- Witness for the amended C1: a state with 2 retries and draw `1/2`. -/
theorem sleep_seconds_schedule_witness :
    ((⟨2⟩ : FiniteRetryStrategy).retries = 2 →
      ∃ d, (⟨2⟩ : FiniteRetryStrategy).sleep_seconds (1/2) = some d ∧ 0 ≤ d ∧ d < 2)
    ∧ ((⟨2⟩ : FiniteRetryStrategy).retries = 1 →
      ∃ d, (⟨2⟩ : FiniteRetryStrategy).sleep_seconds (1/2) = some d ∧ 2 ≤ d ∧ d < 4)
    ∧ (3 ≤ (⟨2⟩ : FiniteRetryStrategy).retries →
      (⟨2⟩ : FiniteRetryStrategy).sleep_seconds (1/2) = none) :=
  sleep_seconds_schedule ⟨2⟩ (1/2) (by norm_num) (by norm_num)

/-- **C8.** For every `FiniteRetryStrategy` state, `should_retry_on_failure()`
returns true if and only if `remainingRetries > 1`; in particular a strategy
constructed with `retries = 1` never permits a retry. -/
theorem should_retry_iff (s : FiniteRetryStrategy) :
    (s.should_retry_on_failure = true ↔ s.retries > 1)
    ∧ (FiniteRetryStrategy.mk 1).should_retry_on_failure = false := by
  constructor
  · simp [FiniteRetryStrategy.should_retry_on_failure]
  · decide

/-- **C9.** `consume_available_retry()` returns a new instance whose
`remainingRetries` is the receiver's minus 1 and never mutates the receiver:
on the heap, calling it twice on the object at `ref` leaves the cell at
`ref` holding its original value `s` and yields two distinct fresh
references, each holding `remainingRetries - 1`. -/
theorem consume_retry_fresh (st : Store FiniteRetryStrategy) (ref : Nat)
    (s : FiniteRetryStrategy) (hWF : st.WF) (h : st.lookup ref = some s) :
    s.consume_available_retry.retries = s.retries - 1
    ∧ (consumeOnStore st ref).2.lookup ref = some s
    ∧ (consumeOnStore (consumeOnStore st ref).2 ref).2.lookup ref = some s
    ∧ (consumeOnStore st ref).1 ≠ (consumeOnStore (consumeOnStore st ref).2 ref).1
    ∧ (consumeOnStore (consumeOnStore st ref).2 ref).2.lookup (consumeOnStore st ref).1
        = some ⟨s.retries - 1⟩
    ∧ (consumeOnStore (consumeOnStore st ref).2 ref).2.lookup
        (consumeOnStore (consumeOnStore st ref).2 ref).1 = some ⟨s.retries - 1⟩ := by
  have hlt : ref < st.next :=
    Store.lookup_lt_next hWF (show (st.lookup ref).isSome by rw [h]; rfl)
  have hne : ref ≠ st.next := by omega
  simp only [consumeOnStore]
  set v1 := ((st.lookup ref).getD (⟨0⟩ : FiniteRetryStrategy)).consume_available_retry
    with hv1
  have l1 : (st.alloc v1).2.lookup ref = some s := by
    rw [Store.lookup_alloc_ne _ _ hne]
    exact h
  rw [l1]
  simp only [Option.getD_some]
  refine ⟨rfl, trivial, ?_, ?_, ?_, ?_⟩
  · rw [Store.lookup_alloc_ne _ _
      (show ref ≠ (st.alloc v1).2.next from by show ref ≠ st.next + 1; omega)]
    exact l1
  · show st.next ≠ st.next + 1
    omega
  · rw [Store.lookup_alloc_ne _ _
      (show (st.alloc v1).1 ≠ (st.alloc v1).2.next from by
        show st.next ≠ st.next + 1; omega)]
    rw [Store.lookup_alloc_self, hv1, h]
    rfl
  · rw [Store.lookup_alloc_self]
    rfl

/-- Witness for C9: a one-cell heap holding a default (3-retry) strategy. -/
theorem consume_retry_fresh_witness :
    (⟨3⟩ : FiniteRetryStrategy).consume_available_retry.retries
        = (⟨3⟩ : FiniteRetryStrategy).retries - 1
    ∧ (consumeOnStore ⟨[(0, ⟨3⟩)], 1⟩ 0).2.lookup 0 = some ⟨3⟩
    ∧ (consumeOnStore (consumeOnStore ⟨[(0, ⟨3⟩)], 1⟩ 0).2 0).2.lookup 0 = some ⟨3⟩
    ∧ (consumeOnStore ⟨[(0, ⟨3⟩)], 1⟩ 0).1
        ≠ (consumeOnStore (consumeOnStore ⟨[(0, ⟨3⟩)], 1⟩ 0).2 0).1
    ∧ (consumeOnStore (consumeOnStore ⟨[(0, ⟨3⟩)], 1⟩ 0).2 0).2.lookup
        (consumeOnStore ⟨[(0, ⟨3⟩)], 1⟩ 0).1
        = some ⟨(⟨3⟩ : FiniteRetryStrategy).retries - 1⟩
    ∧ (consumeOnStore (consumeOnStore ⟨[(0, ⟨3⟩)], 1⟩ 0).2 0).2.lookup
        (consumeOnStore (consumeOnStore ⟨[(0, ⟨3⟩)], 1⟩ 0).2 0).1
        = some ⟨(⟨3⟩ : FiniteRetryStrategy).retries - 1⟩ :=
  consume_retry_fresh ⟨[(0, ⟨3⟩)], 1⟩ 0 ⟨3⟩
    (by intro p hp; rcases List.mem_singleton.mp hp with rfl; decide) rfl

/-- **C2.** For every attempt whose response has status 401: the cached
access token is cleared exactly once per 401 among the consumed attempts
(first conjunct, over any run); if the authorizer supports refresh the
request is retried — the run equals one more attempt around the recursive
call on the consumed strategy, and the refresh happens when the next attempt
obtains its header (`_set_header_callback` refreshes the cleared, invalid
token); if the authorizer does not support refresh, the 401 entry of
`STATUS_EXCEPTIONS` (an authorization error) is raised with no retry
(`attempts = 1`). -/
theorem unauthorized_clear_refresh_retry (auth : AuthorizerState)
    (rs : FiniteRetryStrategy) (r : Response) (rest outcomes : List Outcome)
    (h401 : r.status = 401) (hret : rs.should_retry_on_failure = true) :
    ((requestWithRetries auth rs outcomes).auth.clearCount
      = auth.clearCount
        + count401 (outcomes.take (requestWithRetries auth rs outcomes).attempts))
    ∧ (auth.hasRefresh = true →
        requestWithRetries auth rs (.response r :: rest)
          = ⟨(requestWithRetries (clearAccessToken (setHeaderCallback auth))
                rs.consume_available_retry rest).auth,
             (requestWithRetries (clearAccessToken (setHeaderCallback auth))
                rs.consume_available_retry rest).attempts + 1,
             (requestWithRetries (clearAccessToken (setHeaderCallback auth))
                rs.consume_available_retry rest).result⟩
          ∧ (setHeaderCallback (clearAccessToken (setHeaderCallback auth))).refreshCount
              = (clearAccessToken (setHeaderCallback auth)).refreshCount + 1)
    ∧ (auth.hasRefresh = false →
        requestWithRetries auth rs (.response r :: rest)
          = ⟨clearAccessToken (setHeaderCallback auth), 1,
             .raised (.statusException .authorizationError r)⟩) := by
  have hbeq : (r.status == 401) = true := by simp [h401]
  refine ⟨clearCount_run outcomes auth rs, ?_, ?_⟩
  · intro hR
    have hR1 : (setHeaderCallback auth).hasRefresh = true := by
      rw [setHeaderCallback_hasRefresh]; exact hR
    constructor
    · simp [requestWithRetries, hbeq, hR1, hret]
    · have hR2 : (clearAccessToken (setHeaderCallback auth)).hasRefresh = true := by
        simpa [clearAccessToken] using hR1
      exact setHeaderCallback_refreshes _ rfl hR2
  · intro hR
    have hR1 : (setHeaderCallback auth).hasRefresh = false := by
      rw [setHeaderCallback_hasRefresh]; exact hR
    have hcon : RETRY_STATUSES.contains r.status = false := by
      rw [h401]; rfl
    have hmem : r.status ∉ RETRY_STATUSES := by
      rw [h401]; decide
    have hse : STATUS_EXCEPTIONS r.status = some .authorizationError := by
      rw [h401]; rfl
    simp [requestWithRetries, classifyTerminal, hbeq, hR1, hcon, hmem, hse, hret]

/-- Witness for C2: a refresh-capable authorizer with a valid token, the
default 3-retry strategy, a bare 401 response, empty rest of script. -/
theorem unauthorized_clear_refresh_retry_witness :
    ((requestWithRetries ⟨true, true, 0, 0⟩ ⟨3⟩ []).auth.clearCount
      = (⟨true, true, 0, 0⟩ : AuthorizerState).clearCount
        + count401 (List.take (requestWithRetries ⟨true, true, 0, 0⟩ ⟨3⟩ []).attempts []))
    ∧ ((⟨true, true, 0, 0⟩ : AuthorizerState).hasRefresh = true →
        requestWithRetries ⟨true, true, 0, 0⟩ ⟨3⟩ [.response ⟨401, none, none⟩]
          = ⟨(requestWithRetries
                (clearAccessToken (setHeaderCallback ⟨true, true, 0, 0⟩))
                (⟨3⟩ : FiniteRetryStrategy).consume_available_retry []).auth,
             (requestWithRetries
                (clearAccessToken (setHeaderCallback ⟨true, true, 0, 0⟩))
                (⟨3⟩ : FiniteRetryStrategy).consume_available_retry []).attempts + 1,
             (requestWithRetries
                (clearAccessToken (setHeaderCallback ⟨true, true, 0, 0⟩))
                (⟨3⟩ : FiniteRetryStrategy).consume_available_retry []).result⟩
          ∧ (setHeaderCallback (clearAccessToken (setHeaderCallback
                ⟨true, true, 0, 0⟩))).refreshCount
              = (clearAccessToken (setHeaderCallback
                ⟨true, true, 0, 0⟩)).refreshCount + 1)
    ∧ ((⟨true, true, 0, 0⟩ : AuthorizerState).hasRefresh = false →
        requestWithRetries ⟨true, true, 0, 0⟩ ⟨3⟩ [.response ⟨401, none, none⟩]
          = ⟨clearAccessToken (setHeaderCallback ⟨true, true, 0, 0⟩), 1,
             .raised (.statusException .authorizationError ⟨401, none, none⟩)⟩) :=
  unauthorized_clear_refresh_retry ⟨true, true, 0, 0⟩ ⟨3⟩ ⟨401, none, none⟩ [] []
    rfl rfl

/-- **C10.** When a 401 response arrives but the strategy no longer permits
a retry, the request is not retried even if the authorizer supports refresh:
the run stops after this attempt (`attempts = 1`), the cached access token
is still cleared (the final authorizer state is the cleared one), and the
authorization error from the 401 entry of `STATUS_EXCEPTIONS` is raised. -/
theorem unauthorized_exhausted_no_retry (auth : AuthorizerState)
    (rs : FiniteRetryStrategy) (r : Response) (rest : List Outcome)
    (h401 : r.status = 401) (hret : rs.should_retry_on_failure = false) :
    requestWithRetries auth rs (.response r :: rest)
      = ⟨clearAccessToken (setHeaderCallback auth), 1,
         .raised (.statusException .authorizationError r)⟩ := by
  have hbeq : (r.status == 401) = true := by simp [h401]
  have hse : STATUS_EXCEPTIONS r.status = some .authorizationError := by
    rw [h401]; rfl
  simp [requestWithRetries, classifyTerminal, hbeq, hse, hret]

/-- Witness for C10: an exhausted strategy (`retries = 1`) and a
refresh-capable authorizer; the 401 is still terminal. -/
theorem unauthorized_exhausted_no_retry_witness :
    requestWithRetries ⟨true, true, 0, 0⟩ ⟨1⟩ [.response ⟨401, none, none⟩]
      = ⟨clearAccessToken (setHeaderCallback ⟨true, true, 0, 0⟩), 1,
         .raised (.statusException .authorizationError ⟨401, none, none⟩)⟩ :=
  unauthorized_exhausted_no_retry ⟨true, true, 0, 0⟩ ⟨1⟩ ⟨401, none, none⟩ [] rfl rfl

/-- **C3 (counterexample).** 408 is in `RETRY_STATUSES` but has no
`STATUS_EXCEPTIONS` entry: with retries exhausted, a 408 response does not
raise `ServerError` — it trips the success-status `assert`
(`AssertionError`), refuting the claim for the element 408 of the set. -/
theorem status_408_exhausted_not_serverError :
    (requestWithRetries ⟨false, true, 0, 0⟩ ⟨1⟩ [.response ⟨408, none, none⟩]).result
      = .raised (.assertionError 408)
    ∧ (requestWithRetries ⟨false, true, 0, 0⟩ ⟨1⟩ [.response ⟨408, none, none⟩]).result
      ≠ .raised (.statusException .serverError ⟨408, none, none⟩)
    ∧ STATUS_EXCEPTIONS 408 = none := by
  refine ⟨rfl, ?_, rfl⟩
  decide

/-- **C3 (amended).** For every status in the retryable set
{502, 504, 500, 408, 503, 520, 522}: while the strategy permits a retry the
attempt is retried (the run recurses on the consumed strategy); once
retries are exhausted, a response with that status is terminal — raising
`ServerError` for the six statuses that have a `STATUS_EXCEPTIONS` entry
(502, 504, 500, 503, 520, 522), while 408, which has no entry, fails the
success-status assertion instead. -/
theorem retryable_statuses_retry_then_terminal (auth : AuthorizerState)
    (rs : FiniteRetryStrategy) (r : Response) (rest : List Outcome)
    (hs : r.status ∈ RETRY_STATUSES) :
    (rs.should_retry_on_failure = true →
      requestWithRetries auth rs (.response r :: rest)
        = ⟨(requestWithRetries (setHeaderCallback auth)
              rs.consume_available_retry rest).auth,
           (requestWithRetries (setHeaderCallback auth)
              rs.consume_available_retry rest).attempts + 1,
           (requestWithRetries (setHeaderCallback auth)
              rs.consume_available_retry rest).result⟩)
    ∧ (rs.should_retry_on_failure = false →
        requestWithRetries auth rs (.response r :: rest)
          = ⟨setHeaderCallback auth, 1,
             if r.status = 408 then .raised (.assertionError 408)
             else .raised (.statusException .serverError r)⟩) := by
  simp only [RETRY_STATUSES, List.mem_cons, List.not_mem_nil, or_false] at hs
  constructor
  · intro hret
    rcases hs with h | h | h | h | h | h | h <;>
      simp [requestWithRetries, RETRY_STATUSES, h, hret]
  · intro hret
    rcases hs with h | h | h | h | h | h | h <;>
      simp [requestWithRetries, classifyTerminal, h, hret,
        show STATUS_EXCEPTIONS 520 = some .serverError from rfl,
        show STATUS_EXCEPTIONS 522 = some .serverError from rfl,
        show STATUS_EXCEPTIONS 502 = some .serverError from rfl,
        show STATUS_EXCEPTIONS 504 = some .serverError from rfl,
        show STATUS_EXCEPTIONS 500 = some .serverError from rfl,
        show STATUS_EXCEPTIONS 408 = none from rfl,
        show STATUS_EXCEPTIONS 503 = some .serverError from rfl,
        SUCCESS_STATUSES]

/-- Witness for the amended C3: a 503 with a fresh strategy (retried) and
with an exhausted strategy (terminal `ServerError`). -/
theorem retryable_statuses_retry_then_terminal_witness :
    ((⟨3⟩ : FiniteRetryStrategy).should_retry_on_failure = true →
      requestWithRetries ⟨false, true, 0, 0⟩ ⟨3⟩ [.response ⟨503, none, none⟩]
        = ⟨(requestWithRetries (setHeaderCallback ⟨false, true, 0, 0⟩)
              (⟨3⟩ : FiniteRetryStrategy).consume_available_retry []).auth,
           (requestWithRetries (setHeaderCallback ⟨false, true, 0, 0⟩)
              (⟨3⟩ : FiniteRetryStrategy).consume_available_retry []).attempts + 1,
           (requestWithRetries (setHeaderCallback ⟨false, true, 0, 0⟩)
              (⟨3⟩ : FiniteRetryStrategy).consume_available_retry []).result⟩)
    ∧ ((⟨3⟩ : FiniteRetryStrategy).should_retry_on_failure = false →
        requestWithRetries ⟨false, true, 0, 0⟩ ⟨3⟩ [.response ⟨503, none, none⟩]
          = ⟨setHeaderCallback ⟨false, true, 0, 0⟩, 1,
             if (⟨503, none, none⟩ : Response).status = 408
             then .raised (.assertionError 408)
             else .raised (.statusException .serverError ⟨503, none, none⟩)⟩) :=
  retryable_statuses_retry_then_terminal ⟨false, true, 0, 0⟩ ⟨3⟩ ⟨503, none, none⟩ []
    (by decide)

/-- **C4 (counterexample).** The too-many-requests entry of
`STATUS_EXCEPTIONS` is keyed by `codes["too_many_requests"] = 429`, not 420:
a 420 response reaching the terminal classification has no mapping entry and
trips the success-status `assert` instead of raising `TooManyRequests`. -/
theorem status_420_hits_assert :
    (requestWithRetries ⟨false, true, 0, 0⟩ ⟨1⟩ [.response ⟨420, none, none⟩]).result
      = .raised (.assertionError 420)
    ∧ (requestWithRetries ⟨false, true, 0, 0⟩ ⟨1⟩ [.response ⟨420, none, none⟩]).result
      ≠ .raised (.statusException .tooManyRequests ⟨420, none, none⟩)
    ∧ STATUS_EXCEPTIONS 420 = none := by
  refine ⟨rfl, ?_, rfl⟩
  decide

/-- **C4 (amended).** A response with HTTP status 429 (the key of the
`TooManyRequests` entry, `codes["too_many_requests"]`) that reaches the
terminal classification step raises `TooManyRequests` with the response
attached; 420 has no entry in the mapping. -/
theorem too_many_requests_is_429 (auth : AuthorizerState)
    (rs : FiniteRetryStrategy) (r : Response) (rest : List Outcome)
    (h : r.status = 429) :
    requestWithRetries auth rs (.response r :: rest)
      = ⟨setHeaderCallback auth, 1,
         .raised (.statusException .tooManyRequests r)⟩
    ∧ STATUS_EXCEPTIONS 420 = none := by
  refine ⟨?_, rfl⟩
  simp [requestWithRetries, classifyTerminal, RETRY_STATUSES, h,
    show STATUS_EXCEPTIONS 429 = some .tooManyRequests from rfl]

/-- Witness for the amended C4: a bare 429 response. -/
theorem too_many_requests_is_429_witness :
    requestWithRetries ⟨false, true, 0, 0⟩ ⟨3⟩ [.response ⟨429, none, none⟩]
      = ⟨setHeaderCallback ⟨false, true, 0, 0⟩, 1,
         .raised (.statusException .tooManyRequests ⟨429, none, none⟩)⟩
    ∧ STATUS_EXCEPTIONS 420 = none :=
  too_many_requests_is_429 ⟨false, true, 0, 0⟩ ⟨3⟩ ⟨429, none, none⟩ [] rfl

/-- **C5.** For every response with a success status (200, 201 or 202), the
attempt is terminal (one attempt, no error-mapping entry): if the
`content-length` header is `"0"` the request returns the empty string;
otherwise the body is parsed as JSON and the decoded structure is returned;
if the body is not valid JSON, `BadJSON` is raised with the response
attached. -/
theorem success_statuses_body_handling (auth : AuthorizerState)
    (rs : FiniteRetryStrategy) (r : Response) (rest : List Outcome)
    (hs : r.status ∈ SUCCESS_STATUSES) :
    requestWithRetries auth rs (.response r :: rest)
      = ⟨setHeaderCallback auth, 1, classifyTerminal r⟩
    ∧ classifyTerminal r
      = (if r.contentLength == some "0" then .returned .emptyBody
         else match r.jsonBody with
           | some v => .returned (.jsonValue v)
           | none => .raised (.badJSON r)) := by
  simp only [SUCCESS_STATUSES, List.mem_cons, List.not_mem_nil, or_false] at hs
  constructor
  · rcases hs with h | h | h <;>
      simp [requestWithRetries, RETRY_STATUSES, h]
  · rcases hs with h | h | h <;>
      simp [classifyTerminal, SUCCESS_STATUSES, h,
        show STATUS_EXCEPTIONS 200 = none from rfl,
        show STATUS_EXCEPTIONS 201 = none from rfl,
        show STATUS_EXCEPTIONS 202 = none from rfl]

/-- Witness for C5: a 200 response with `content-length: 0` returns `""`. -/
theorem success_statuses_body_handling_witness :
    requestWithRetries ⟨false, true, 0, 0⟩ ⟨3⟩ [.response ⟨200, some "0", none⟩]
      = ⟨setHeaderCallback ⟨false, true, 0, 0⟩, 1,
         classifyTerminal ⟨200, some "0", none⟩⟩
    ∧ classifyTerminal ⟨200, some "0", none⟩
      = (if (⟨200, some "0", none⟩ : Response).contentLength == some "0"
         then .returned .emptyBody
         else match (⟨200, some "0", none⟩ : Response).jsonBody with
           | some v => .returned (.jsonValue v)
           | none => .raised (.badJSON ⟨200, some "0", none⟩)) :=
  success_statuses_body_handling ⟨false, true, 0, 0⟩ ⟨3⟩ ⟨200, some "0", none⟩ []
    (by decide)

/-- **C6.** `Session.request` never mutates the caller's `params` / `data` /
`json` mappings: whatever the call returns or raises, every dict cell
allocated before the call dereferences afterwards exactly as before —
normalization (injecting `raw_json=1` and `api_type="json"`, sorting `data`)
operates only on `deepcopy`-allocated fresh cells. -/
theorem request_never_mutates_caller_dicts (st : Store Dict)
    (auth : AuthorizerState) (rs : FiniteRetryStrategy) (params : Option Nat)
    (dataIn : DataIn) (jsonIn : Option Nat) (outcomes : List Outcome) (ref : Nat)
    (hWF : st.WF) (href : (st.lookup ref).isSome) :
    (sessionRequest st auth rs params dataIn jsonIn outcomes).1.lookup ref
      = st.lookup ref := by
  have hlt : ref < st.next := Store.lookup_lt_next hWF href
  have base := Store.Evolves.refl st
  cases dataIn with
  | dict dref =>
    cases jsonIn with
    | some jref =>
      exact (((base.allocUpdate _ _).allocUpdate _ _).allocUpdate _ _).lookup_eq hlt
    | none =>
      exact ((base.allocUpdate _ _).allocUpdate _ _).lookup_eq hlt
  | raw b =>
    cases jsonIn with
    | some jref =>
      exact ((base.allocUpdate _ _).allocUpdate _ _).lookup_eq hlt
    | none =>
      exact (base.allocUpdate _ _).lookup_eq hlt
  | omitted =>
    cases jsonIn with
    | some jref =>
      exact ((base.allocUpdate _ _).allocUpdate _ _).lookup_eq hlt
    | none =>
      exact (base.allocUpdate _ _).lookup_eq hlt

/-- Witness for C6: a one-cell heap whose dict is passed as `params`, `data`
and `json` at once; the cell is unchanged after the call. -/
theorem request_never_mutates_caller_dicts_witness :
    (sessionRequest ⟨[(0, [("k", PValue.int 7)])], 1⟩ ⟨false, true, 0, 0⟩ ⟨3⟩
        (some 0) (.dict 0) (some 0) []).1.lookup 0
      = (⟨[(0, [("k", PValue.int 7)])], 1⟩ : Store Dict).lookup 0 :=
  request_never_mutates_caller_dicts ⟨[(0, [("k", PValue.int 7)])], 1⟩
    ⟨false, true, 0, 0⟩ ⟨3⟩ (some 0) (.dict 0) (some 0) [] 0
    (by intro p hp; rcases List.mem_singleton.mp hp with rfl; decide) rfl

/-- **C7.** When `data` is a mapping, the body sent on the wire is the
sequence of `(key, value)` pairs of the mapping plus the injected pair
`("api_type", "json")`, sorted lexicographically by key: the serialized form
is sorted under the key order and is a permutation of the original items
plus the injected pair; on the example `{"b": 2, "a": 1}` it equals
`[("a", 1), ("api_type", "json"), ("b", 2)]`; non-mapping `data` (raw
bytes / file-like) passes through normalization unchanged. -/
theorem data_mapping_sorted_serialization (d : Dict) (b : String)
    (st : Store Dict) (params : Option Nat) (jsonIn : Option Nat)
    (hd : ∀ kv ∈ d, kv.1 ≠ "api_type") :
    List.Sorted keyLE (serializeDataDict d)
    ∧ (serializeDataDict d).Perm (d ++ [("api_type", PValue.str "json")])
    ∧ serializeDataDict [("b", .int 2), ("a", .int 1)]
        = [("a", .int 1), ("api_type", .str "json"), ("b", .int 2)]
    ∧ (requestNormalize st params (.raw b) jsonIn).2.2.1 = .raw b := by
  have hnot : (d.any (fun kv => kv.1 == "api_type")) = false := by
    rw [List.any_eq_false]
    intro kv hkv
    simpa using hd kv hkv
  have hset : dictSet d "api_type" (.str "json")
      = d ++ [("api_type", .str "json")] := by
    simp [dictSet, hnot]
  refine ⟨List.sorted_insertionSort keyLE _, ?_, by decide, ?_⟩
  · exact hset ▸ List.perm_insertionSort keyLE _
  · cases jsonIn <;> rfl

/-- Witness for C7: the claim's own example mapping. -/
theorem data_mapping_sorted_serialization_witness :
    List.Sorted keyLE (serializeDataDict [("b", .int 2), ("a", .int 1)])
    ∧ (serializeDataDict [("b", .int 2), ("a", .int 1)]).Perm
        ([("b", PValue.int 2), ("a", PValue.int 1)]
          ++ [("api_type", PValue.str "json")])
    ∧ serializeDataDict [("b", .int 2), ("a", .int 1)]
        = [("a", .int 1), ("api_type", .str "json"), ("b", .int 2)]
    ∧ (requestNormalize ⟨[], 0⟩ none (.raw "payload") none).2.2.1 = .raw "payload" :=
  data_mapping_sorted_serialization [("b", .int 2), ("a", .int 1)] "payload"
    ⟨[], 0⟩ none none (by decide)

end Prawcore
